import Mathlib

/-!
Verification development for the interview-preparation backend.

The core under study is the interview session state machine in
`src/services/interview_session.py`, the conversational topic-rotation
step performed by the HTTP handler in `src/main.py`
(`conversational_answer_endpoint`, lines 762-776), and the answer
evaluator fallback in `src/services/answer_evaluator.py`.

Modelling conventions:
- Python dicts holding question data are association lists
  `List (String × Val)` with Python assignment / `.get` semantics
  (`dictSet`, `dictGet`).
- `datetime.utcnow()` is modelled by passing an explicit `now : Nat`
  (seconds) to every operation that reads the clock; `datetime`
  subtraction at whole-second granularity becomes `Int` subtraction.
- `raise ValueError(msg)` becomes an `Outcome.error msg` result paired
  with the unchanged session state (the Python exception propagates
  before any field of the session object is mutated).
- `uuid.uuid4()` is external; the generated id is a parameter of
  `createSession`.
-/

namespace InterviewBackend

/-- Values stored in a question dict: the code only ever reads string
and integer entries ("id" is an int, "question", "category", ... are
strings). -/
inductive Val where
  | str : String → Val
  | num : Nat → Val
deriving DecidableEq

/-- A Python dict as an insertion-ordered association list. -/
abbrev Dict := List (String × Val)

/-- Python `d.get(k)` / `d.get(k, default)` via `Option.getD`. -/
def dictGet (d : Dict) (k : String) : Option Val :=
  match d with
  | [] => none
  | (k2, v) :: rest => if k2 = k then some v else dictGet rest k

/-- Python `d[k] = v`: update in place if the key exists (keeping its
position), otherwise append at the end, as Python dicts do. -/
def dictSet (d : Dict) (k : String) (v : Val) : Dict :=
  match d with
  | [] => [(k, v)]
  | (k2, v2) :: rest => if k2 = k then (k, v) :: rest else (k2, v2) :: dictSet rest k v

/-- `SessionStatus` enum from `interview_session.py`. -/
inductive SessionStatus where
  | in_progress
  | completed
  | abandoned
deriving DecidableEq

/-- One entry of the session response log, as built by `submit_answer`
and `skip_question`: `question_id` and `question_text` use Python
`.get` with defaults, so they keep `Val` type. -/
structure Response where
  question_id : Val
  question_text : Val
  answer_text : String
  skipped : Bool
  time_taken_seconds : Option Int
  timestamp : Nat
deriving DecidableEq

/-- Explicit default used with `List.getD` on response logs (replaces a
derived `Inhabited`). -/
def dummyResponse : Response :=
  { question_id := Val.num 0, question_text := Val.str "",
    answer_text := "", skipped := false,
    time_taken_seconds := none, timestamp := 0 }

/-- The `InterviewSession` object: question list, pointer, response
log, status, timestamps and the conversational state fields from
`__init__`. -/
structure Session where
  session_id : String
  user_id : String
  resume_data : Dict
  questions : List Dict
  job_context : Dict
  metadata : Dict
  status : SessionStatus
  current_question_index : Nat
  responses : List Response
  start_time : Nat
  end_time : Option Nat
  follow_up_count : Nat
  skip_flag : Bool
  previous_topic : Option String
  topics_used : List String
  conversation_history : List (String × String)
deriving DecidableEq

/-- `InterviewSession.__init__` (the session-store registration is
external to the state itself; the uuid is the `session_id` parameter). -/
def createSession (session_id user_id : String) (resume_data : Dict)
    (questions : List Dict) (job_context : Dict) (metadata : Dict)
    (now : Nat) : Session :=
  { session_id := session_id
    user_id := user_id
    resume_data := resume_data
    questions := questions
    job_context := job_context
    metadata := metadata
    status := SessionStatus.in_progress
    current_question_index := 0
    responses := []
    start_time := now
    end_time := none
    follow_up_count := 0
    skip_flag := false
    previous_topic := none
    topics_used := []
    conversation_history := [] }

/-- `complete_session`: mark completed and stamp the end time. -/
def complete_session (s : Session) (now : Nat) : Session :=
  { s with status := SessionStatus.completed, end_time := some now }

/-- `abandon_session`: mark abandoned and stamp the end time
(unconditionally, no guard in the source). -/
def abandon_session (s : Session) (now : Nat) : Session :=
  { s with status := SessionStatus.abandoned, end_time := some now }

/-- `get_current_question`: returns the (possibly completing) new state
together with the returned value. The returned question is a copy of
the stored dict with three annotation keys set, exactly as in the
source (`.copy()` then three assignments). -/
def get_current_question (s : Session) (now : Nat) : Option Dict × Session :=
  if s.status ≠ SessionStatus.in_progress then
    (none, s)
  else if s.questions.length ≤ s.current_question_index then
    (none, complete_session s now)
  else
    let question := s.questions.getD s.current_question_index []
    let question := dictSet question "question_number" (Val.num (s.current_question_index + 1))
    let question := dictSet question "total_questions" (Val.num s.questions.length)
    let question := dictSet question "session_id" (Val.str s.session_id)
    (some question, s)

/-- Result of `submit_answer` / `skip_question`: the returned dict in
the source carries a status string, a message, either completion
counts or the next question; `error` models `raise ValueError`. -/
inductive Outcome where
  | error : String → Outcome
  | completedOut : String → Nat → Nat → Nat → Outcome
  | nextOut : String → String → Option Dict → Outcome
deriving DecidableEq

/-- Whether an outcome is a raised `ValueError`. -/
def Outcome.isError : Outcome → Bool
  | Outcome.error _ => true
  | _ => false

/-- `submit_answer(answer_text, time_taken_seconds)`: guards first
(invalid state, exhausted), then append the response, advance the
pointer, and either complete or fetch the next question. -/
def submit_answer (s : Session) (answer_text : String)
    (time_taken_seconds : Option Int) (now : Nat) : Outcome × Session :=
  if s.status ≠ SessionStatus.in_progress then
    (Outcome.error "Session is not in progress", s)
  else if s.questions.length ≤ s.current_question_index then
    (Outcome.error "No more questions available", s)
  else
    let current_question := s.questions.getD s.current_question_index []
    let response : Response :=
      { question_id := (dictGet current_question "id").getD (Val.num (s.current_question_index + 1))
        question_text := (dictGet current_question "question").getD (Val.str "")
        answer_text := answer_text
        skipped := false
        time_taken_seconds := time_taken_seconds
        timestamp := now }
    let s1 : Session :=
      { s with responses := s.responses ++ [response]
               current_question_index := s.current_question_index + 1 }
    if s1.questions.length ≤ s1.current_question_index then
      let s2 := complete_session s1 now
      (Outcome.completedOut "Interview completed successfully!" s2.questions.length
        (s2.responses.countP (fun r => !r.skipped))
        (s2.responses.countP (fun r => r.skipped)), s2)
    else
      let r := get_current_question s1 now
      (Outcome.nextOut "success" "Answer recorded" r.1, r.2)

/-- `skip_question()`: same shape as `submit_answer` with
`skipped = True`, empty answer text and `time_taken_seconds = 0`. -/
def skip_question (s : Session) (now : Nat) : Outcome × Session :=
  if s.status ≠ SessionStatus.in_progress then
    (Outcome.error "Session is not in progress", s)
  else if s.questions.length ≤ s.current_question_index then
    (Outcome.error "No more questions available", s)
  else
    let current_question := s.questions.getD s.current_question_index []
    let response : Response :=
      { question_id := (dictGet current_question "id").getD (Val.num (s.current_question_index + 1))
        question_text := (dictGet current_question "question").getD (Val.str "")
        answer_text := ""
        skipped := true
        time_taken_seconds := some 0
        timestamp := now }
    let s1 : Session :=
      { s with responses := s.responses ++ [response]
               current_question_index := s.current_question_index + 1 }
    if s1.questions.length ≤ s1.current_question_index then
      let s2 := complete_session s1 now
      (Outcome.completedOut "Interview completed!" s2.questions.length
        (s2.responses.countP (fun r => !r.skipped))
        (s2.responses.countP (fun r => r.skipped)), s2)
    else
      let r := get_current_question s1 now
      (Outcome.nextOut "skipped" "Question skipped" r.1, r.2)

/-- `get_session_summary` return value (the dict the source builds). -/
structure Summary where
  session_id : String
  user_id : String
  status : SessionStatus
  job_context : Dict
  total_questions : Nat
  questions_answered : Nat
  answered_count : Nat
  skipped_count : Nat
  start_time : Nat
  end_time : Option Nat
  duration_seconds : Int
  responses : List Response
deriving DecidableEq

/-- `get_session_summary`: pure read; duration from (end - start) when
the end time is set (`start_time` is always a truthy datetime in the
source, so only `end_time` gates the subtraction). -/
def get_session_summary (s : Session) : Summary :=
  let duration_seconds : Int :=
    match s.end_time with
    | some e => (e : Int) - (s.start_time : Int)
    | none => 0
  { session_id := s.session_id
    user_id := s.user_id
    status := s.status
    job_context := s.job_context
    total_questions := s.questions.length
    questions_answered := s.current_question_index
    answered_count := s.responses.countP (fun r => !r.skipped)
    skipped_count := s.responses.countP (fun r => r.skipped)
    start_time := s.start_time
    end_time := s.end_time
    duration_seconds := duration_seconds
    responses := s.responses }

/-- One answering turn against a session: either a `submit_answer` call
(with its answer text, optional elapsed time and wall-clock time) or a
`skip_question` call. -/
inductive Turn where
  | submitT : String → Option Int → Nat → Turn
  | skipT : Nat → Turn
deriving DecidableEq

/-- Run one turn. -/
def Turn.apply (s : Session) : Turn → Outcome × Session
  | Turn.submitT a t n => submit_answer s a t n
  | Turn.skipT n => skip_question s n

/-- Whether a turn is a skip. -/
def Turn.isSkip : Turn → Bool
  | Turn.submitT _ _ _ => false
  | Turn.skipT _ => true

/-- Wall-clock time of a turn. -/
def Turn.time : Turn → Nat
  | Turn.submitT _ _ n => n
  | Turn.skipT n => n

/-- The response that a turn appends when applied with question `q`
sitting at index `idx` (matches the dict literals in `submit_answer`
and `skip_question`). -/
def mkResponse (q : Dict) (idx : Nat) : Turn → Response
  | Turn.submitT a t n =>
    { question_id := (dictGet q "id").getD (Val.num (idx + 1))
      question_text := (dictGet q "question").getD (Val.str "")
      answer_text := a
      skipped := false
      time_taken_seconds := t
      timestamp := n }
  | Turn.skipT n =>
    { question_id := (dictGet q "id").getD (Val.num (idx + 1))
      question_text := (dictGet q "question").getD (Val.str "")
      answer_text := ""
      skipped := true
      time_taken_seconds := some 0
      timestamp := n }

/-- The responses a list of turns appends, starting at pointer `idx`
into question list `qs`. -/
def expectedResponses (qs : List Dict) (idx : Nat) : List Turn → List Response
  | [] => []
  | t :: ts => mkResponse (qs.getD idx []) idx t :: expectedResponses qs (idx + 1) ts

/-- Run a list of turns, keeping only the final session state. -/
def runTurns (s : Session) : List Turn → Session
  | [] => s
  | t :: ts => runTurns (t.apply s).2 ts

/-- True when every turn in the list succeeds (no `ValueError`). -/
def runTurnsOk (s : Session) : List Turn → Bool
  | [] => true
  | t :: ts => !(t.apply s).1.isError && runTurnsOk (t.apply s).2 ts

/-- Any operation of the session core, for stating invariants over
arbitrary call sequences. `summaryAct` is the pure read
`get_session_summary`. -/
inductive Action where
  | submitAct : String → Option Int → Nat → Action
  | skipAct : Nat → Action
  | getCurrentAct : Nat → Action
  | abandonAct : Nat → Action
  | summaryAct : Action
deriving DecidableEq

/-- State reached after one operation (a failing `submit_answer` /
`skip_question` raises before mutating, so the session is the one
paired with the error outcome; `get_session_summary` reads only). -/
def applyAction (s : Session) : Action → Session
  | Action.submitAct a t n => (submit_answer s a t n).2
  | Action.skipAct n => (skip_question s n).2
  | Action.getCurrentAct n => (get_current_question s n).2
  | Action.abandonAct n => abandon_session s n
  | Action.summaryAct => s

/-- State after a whole call sequence. -/
def runActions (s : Session) (acts : List Action) : Session :=
  acts.foldl applyAction s

/-- The category label the conversational endpoint reads from the
current question: `current_question_data.get('category', 'technical')`
(category values produced by the question generator are strings, so a
non-string value also falls back to the default label here). -/
def category_of (q : Dict) : String :=
  match dictGet q "category" with
  | some (Val.str c) => c
  | some (Val.num _) => "technical"
  | none => "technical"

/-- Topic-change step of `conversational_answer_endpoint`
(`src/main.py` lines 767-776): `topic_changed = (session.previous_topic
and session.previous_topic != current_topic)` — Python truthiness makes
both `None` and the empty string fail the test — and on change the
follow-up counter resets, the previous topic is replaced and the new
topic is appended only if absent. -/
def update_topic_state (s : Session) (current_topic : String) : Session :=
  let topic_changed : Bool :=
    match s.previous_topic with
    | none => false
    | some p => (p != "") && (p != current_topic)
  if topic_changed then
    { s with follow_up_count := 0
             previous_topic := some current_topic
             topics_used :=
               if current_topic ∈ s.topics_used then s.topics_used
               else s.topics_used ++ [current_topic] }
  else s

/-- Python `str.strip()` on the character list (strips leading and
trailing whitespace). -/
def pyStrip (s : String) : String :=
  String.mk (((s.data.dropWhile Char.isWhitespace).reverse.dropWhile
    Char.isWhitespace).reverse)

/-- The dict returned by `evaluate_answer` /
`generate_fallback_evaluation`: feedback text, score, optional
follow-up question. -/
structure Evaluation where
  feedback : String
  score : Int
  follow_up_question : Option String
deriving DecidableEq

/-- `generate_fallback_evaluation`: length-bucketed heuristic over the
stripped answer length. -/
def generate_fallback_evaluation (answer : String) : Evaluation :=
  let answer_length := (pyStrip answer).length
  if answer_length < 50 then
    { feedback := "Your answer is quite brief. Try to provide more details and examples."
      score := 4
      follow_up_question := some "Can you elaborate more on this with specific examples?" }
  else if answer_length < 150 then
    { feedback := "Good start! Consider adding more depth and specific examples to strengthen your answer."
      score := 6
      follow_up_question := none }
  else
    { feedback := "Thank you for the detailed response. Make sure your answer directly addresses all aspects of the question."
      score := 7
      follow_up_question := none }

/-- A successfully parsed LLM evaluation object: the three fields the
code reads from the decoded JSON dict, each optional (absent key).
`json.loads` composed with `clean_json_response` is Python stdlib plus
regex glue, modelled as an oracle `parse` parameter of
`evaluate_answer`; `score` is the raw integer before clamping (a
non-integer score is modelled as an absent field, which the code also
sends to the default 5). -/
structure ParsedEval where
  feedback : Option String
  score : Option Int
  follow_up_question : Option (Option String)

/-- Clamping `max(1, min(10, int(score)))`. -/
def clamp_score (n : Int) : Int := max 1 (min 10 n)

/-- `evaluate_answer`: the short-answer guard
(`len(candidate_answer.strip()) < 10`, which also covers the empty
string) short-circuits before any LLM call; otherwise the gateway reply
(`llmResponse`, `none` or the empty string meaning failure) is parsed
and field-defaulted, and any parse failure falls back to the heuristic.
The second component records whether the LLM gateway was invoked. -/
def evaluate_answer (candidate_answer : String) (llmResponse : Option String)
    (parse : String → Option ParsedEval) : Evaluation × Bool :=
  if (pyStrip candidate_answer).length < 10 then
    ({ feedback := "No substantial answer provided. Consider elaborating on your response."
       score := 1
       follow_up_question := none }, false)
  else
    match llmResponse with
    | none => (generate_fallback_evaluation candidate_answer, true)
    | some r =>
      if r = "" then (generate_fallback_evaluation candidate_answer, true)
      else
        match parse r with
        | none => (generate_fallback_evaluation candidate_answer, true)
        | some pe =>
          ({ feedback := pe.feedback.getD "Answer received."
             score := clamp_score (pe.score.getD 5)
             follow_up_question := pe.follow_up_question.getD none }, true)

/-- Alignment of the response log with the question list: one response
per advanced pointer position, pointer within bounds, and the entry at
index `i` carries the id and text of the question at index `i`. -/
def logAligned (s : Session) : Prop :=
  s.responses.length = s.current_question_index ∧
  s.current_question_index ≤ s.questions.length ∧
  ∀ i, i < s.responses.length →
    (s.responses.getD i dummyResponse).question_id =
      (dictGet (s.questions.getD i []) "id").getD (Val.num (i + 1)) ∧
    (s.responses.getD i dummyResponse).question_text =
      (dictGet (s.questions.getD i []) "question").getD (Val.str "")

theorem dictGet_dictSet_self (d : Dict) (k : String) (v : Val) :
    dictGet (dictSet d k v) k = some v := by
  induction d with
  | nil => simp [dictGet, dictSet]
  | cons p rest ih =>
    by_cases h : p.1 = k
    · simp [dictGet, dictSet, h]
    · simp [dictGet, dictSet, h, ih]

theorem dictGet_dictSet_ne (d : Dict) (k k2 : String) (v : Val) (h : k2 ≠ k) :
    dictGet (dictSet d k v) k2 = dictGet d k2 := by
  have hk : ¬ k = k2 := fun hh => h hh.symm
  induction d with
  | nil => simp [dictGet, dictSet, hk]
  | cons p rest ih =>
    by_cases hp : p.1 = k
    · simp [dictGet, dictSet, hp, hk]
    · simp only [dictSet, if_neg hp, dictGet]
      by_cases hp2 : p.1 = k2 <;> simp [hp2, ih]

theorem submit_answer_fail (s : Session) (a : String) (t : Option Int) (n : Nat)
    (h : s.status ≠ SessionStatus.in_progress ∨
      s.questions.length ≤ s.current_question_index) :
    (submit_answer s a t n).2 = s ∧
    ∃ msg, (submit_answer s a t n).1 = Outcome.error msg := by
  rcases h with h | h
  · simp [submit_answer, h]
  · by_cases hs : s.status ≠ SessionStatus.in_progress
    · simp [submit_answer, hs]
    · simp [submit_answer, hs, h]

theorem skip_question_fail (s : Session) (n : Nat)
    (h : s.status ≠ SessionStatus.in_progress ∨
      s.questions.length ≤ s.current_question_index) :
    (skip_question s n).2 = s ∧
    ∃ msg, (skip_question s n).1 = Outcome.error msg := by
  rcases h with h | h
  · simp [skip_question, h]
  · by_cases hs : s.status ≠ SessionStatus.in_progress
    · simp [skip_question, hs]
    · simp [skip_question, hs, h]

theorem turn_apply_spec (s : Session) (t : Turn)
    (hst : s.status = SessionStatus.in_progress)
    (hlt : s.current_question_index < s.questions.length) :
    (t.apply s).1.isError = false ∧
    (t.apply s).2 = { s with
      responses := s.responses ++
        [mkResponse (s.questions.getD s.current_question_index [])
          s.current_question_index t]
      current_question_index := s.current_question_index + 1
      status := if s.questions.length ≤ s.current_question_index + 1
        then SessionStatus.completed else SessionStatus.in_progress
      end_time := if s.questions.length ≤ s.current_question_index + 1
        then some t.time else s.end_time } := by
  have hnle : ¬ s.questions.length ≤ s.current_question_index := Nat.not_le.mpr hlt
  cases t with
  | submitT a tt n =>
    by_cases hend : s.questions.length ≤ s.current_question_index + 1
    · simp [Turn.apply, submit_answer, hst, hnle, hend, complete_session,
        mkResponse, Outcome.isError, Turn.time]
    · simp [Turn.apply, submit_answer, get_current_question, hst, hnle, hend,
        mkResponse, Outcome.isError, Turn.time]
  | skipT n =>
    by_cases hend : s.questions.length ≤ s.current_question_index + 1
    · simp [Turn.apply, skip_question, hst, hnle, hend, complete_session,
        mkResponse, Outcome.isError, Turn.time]
    · simp [Turn.apply, skip_question, get_current_question, hst, hnle, hend,
        mkResponse, Outcome.isError, Turn.time]

theorem runTurns_spec (turns : List Turn) : ∀ (s : Session),
    s.status = SessionStatus.in_progress →
    s.current_question_index + turns.length ≤ s.questions.length →
    runTurnsOk s turns = true ∧
    (runTurns s turns).responses =
      s.responses ++ expectedResponses s.questions s.current_question_index turns ∧
    (runTurns s turns).current_question_index =
      s.current_question_index + turns.length ∧
    (runTurns s turns).questions = s.questions ∧
    (runTurns s turns).start_time = s.start_time ∧
    (s.current_question_index + turns.length < s.questions.length →
      (runTurns s turns).status = SessionStatus.in_progress ∧
      (runTurns s turns).end_time = s.end_time) ∧
    (turns ≠ [] → s.current_question_index + turns.length = s.questions.length →
      (runTurns s turns).status = SessionStatus.completed ∧
      (runTurns s turns).end_time.isSome = true) := by
  induction turns with
  | nil =>
    intro s hst _
    refine ⟨rfl, by simp [runTurns, expectedResponses], by simp [runTurns], rfl, rfl,
      fun _ => ⟨hst, rfl⟩, fun hne _ => absurd rfl hne⟩
  | cons t ts ih =>
    intro s hst hlen
    have hlt : s.current_question_index < s.questions.length := by
      simp at hlen; omega
    obtain ⟨hok, hstate⟩ := turn_apply_spec s t hst hlt
    by_cases hend : s.questions.length ≤ s.current_question_index + 1
    · have hts : ts = [] := by
        cases ts with
        | nil => rfl
        | cons t2 ts2 => simp at hlen; omega
      subst hts
      have hrun : runTurns s [t] = (t.apply s).2 := rfl
      refine ⟨?_, ?_, ?_, ?_, ?_, ?_, ?_⟩
      · simp [runTurnsOk, hok]
      · rw [hrun, hstate]; simp [expectedResponses]
      · rw [hrun, hstate]; simp
      · rw [hrun, hstate]
      · rw [hrun, hstate]
      · intro hcontra; simp at hcontra; omega
      · intro _ _
        rw [hrun, hstate]
        simp [hend]
    · have hlt2 : s.current_question_index + 1 < s.questions.length :=
        Nat.lt_of_not_le hend
      have hst2 : (t.apply s).2.status = SessionStatus.in_progress := by
        rw [hstate]; simp [hend]
      have hlen2 : (t.apply s).2.current_question_index + ts.length ≤
          (t.apply s).2.questions.length := by
        rw [hstate]; simp at hlen ⊢; omega
      obtain ⟨ihok, ihresp, ihidx, ihq, ihstart, ihprog, ihdone⟩ :=
        ih (t.apply s).2 hst2 hlen2
      have hrun : runTurns s (t :: ts) = runTurns (t.apply s).2 ts := rfl
      have hq2 : (t.apply s).2.questions = s.questions := by rw [hstate]
      have hidx2 : (t.apply s).2.current_question_index =
          s.current_question_index + 1 := by rw [hstate]
      have hresp2 : (t.apply s).2.responses = s.responses ++
          [mkResponse (s.questions.getD s.current_question_index [])
            s.current_question_index t] := by rw [hstate]
      refine ⟨?_, ?_, ?_, ?_, ?_, ?_, ?_⟩
      · simp [runTurnsOk, hok, ihok]
      · rw [hrun, ihresp, hresp2, hq2, hidx2]
        simp [expectedResponses]
      · rw [hrun, ihidx, hidx2]; simp; omega
      · rw [hrun, ihq, hq2]
      · rw [hrun, ihstart, hstate]
      · intro hprog
        have hprog2 : (t.apply s).2.current_question_index + ts.length <
            (t.apply s).2.questions.length := by
          rw [hidx2, hq2]; simp at hprog; omega
        obtain ⟨h1, h2⟩ := ihprog hprog2
        refine ⟨by rw [hrun]; exact h1, ?_⟩
        rw [hrun, h2, hstate]; simp [hend]
      · intro _ hdone
        have hts : ts ≠ [] := by
          intro hcontra
          subst hcontra
          simp at hdone
          omega
        have hdone2 : (t.apply s).2.current_question_index + ts.length =
            (t.apply s).2.questions.length := by
          rw [hidx2, hq2]; simp at hdone; omega
        obtain ⟨h1, h2⟩ := ihdone hts hdone2
        exact ⟨by rw [hrun]; exact h1, by rw [hrun]; exact h2⟩

theorem expectedResponses_length (qs : List Dict) (ts : List Turn) :
    ∀ idx, (expectedResponses qs idx ts).length = ts.length := by
  induction ts with
  | nil => intro idx; rfl
  | cons t ts ih => intro idx; simp [expectedResponses, ih]

theorem expectedResponses_getD (qs : List Dict) (ts : List Turn) :
    ∀ idx i, i < ts.length → ∀ (d : Response) (d2 : Turn),
    (expectedResponses qs idx ts).getD i d =
      mkResponse (qs.getD (idx + i) []) (idx + i) (ts.getD i d2) := by
  induction ts with
  | nil => intro idx i hi; simp at hi
  | cons t ts ih =>
    intro idx i hi d d2
    cases i with
    | zero => simp [expectedResponses]
    | succ j =>
      have hj : j < ts.length := by simp at hi; omega
      have := ih (idx + 1) j hj d d2
      simp only [expectedResponses, List.getD_cons_succ]
      rw [this]
      have harith : idx + 1 + j = idx + (j + 1) := by omega
      rw [harith]

theorem applyAction_cases (s : Session) (a : Action) :
    applyAction s a = s ∨
    (∃ t, s.status = SessionStatus.in_progress ∧
      s.current_question_index < s.questions.length ∧
      applyAction s a = (Turn.apply s t).2) ∨
    (∃ n, applyAction s a = complete_session s n) ∨
    (∃ n, applyAction s a = abandon_session s n) := by
  cases a with
  | submitAct ans t n =>
    by_cases hfail : s.status ≠ SessionStatus.in_progress ∨
        s.questions.length ≤ s.current_question_index
    · exact Or.inl (submit_answer_fail s ans t n hfail).1
    · push_neg at hfail
      exact Or.inr (Or.inl ⟨Turn.submitT ans t n, hfail.1, hfail.2, rfl⟩)
  | skipAct n =>
    by_cases hfail : s.status ≠ SessionStatus.in_progress ∨
        s.questions.length ≤ s.current_question_index
    · exact Or.inl (skip_question_fail s n hfail).1
    · push_neg at hfail
      exact Or.inr (Or.inl ⟨Turn.skipT n, hfail.1, hfail.2, rfl⟩)
  | getCurrentAct n =>
    by_cases hs : s.status ≠ SessionStatus.in_progress
    · exact Or.inl (by simp [applyAction, get_current_question, hs])
    · by_cases hend : s.questions.length ≤ s.current_question_index
      · exact Or.inr (Or.inr (Or.inl ⟨n,
          by simp [applyAction, get_current_question, hs, hend]⟩))
      · exact Or.inl (by simp [applyAction, get_current_question, hs, hend])
  | abandonAct n => exact Or.inr (Or.inr (Or.inr ⟨n, rfl⟩))
  | summaryAct => exact Or.inl rfl

theorem applyAction_questions (s : Session) (a : Action) :
    (applyAction s a).questions = s.questions := by
  rcases applyAction_cases s a with h | ⟨t, hst, hlt, h⟩ | ⟨n, h⟩ | ⟨n, h⟩
  · rw [h]
  · rw [h, (turn_apply_spec s t hst hlt).2]
  · rw [h]; rfl
  · rw [h]; rfl

theorem applyAction_index_mono (s : Session) (a : Action) :
    s.current_question_index ≤ (applyAction s a).current_question_index := by
  rcases applyAction_cases s a with h | ⟨t, hst, hlt, h⟩ | ⟨n, h⟩ | ⟨n, h⟩
  · rw [h]
  · rw [h, (turn_apply_spec s t hst hlt).2]; simp
  · rw [h]; exact Nat.le_refl _
  · rw [h]; exact Nat.le_refl _

theorem logAligned_applyAction (s : Session) (a : Action)
    (h : logAligned s) : logAligned (applyAction s a) := by
  obtain ⟨hlen, hbound, hmatch⟩ := h
  rcases applyAction_cases s a with heq | ⟨t, hst, hlt, heq⟩ | ⟨n, heq⟩ | ⟨n, heq⟩
  · rw [heq]; exact ⟨hlen, hbound, hmatch⟩
  · rw [heq, (turn_apply_spec s t hst hlt).2]
    refine ⟨by simp [hlen], by simp; omega, ?_⟩
    intro i hi
    simp at hi
    by_cases hcase : i < s.responses.length
    · have hgd : (s.responses ++
          [mkResponse (s.questions.getD s.current_question_index [])
            s.current_question_index t]).getD i dummyResponse =
          s.responses.getD i dummyResponse :=
        List.getD_append _ _ _ _ hcase
      simp only [hgd]
      exact hmatch i hcase
    · have hieq : i = s.responses.length := by omega
      have hgd : (s.responses ++
          [mkResponse (s.questions.getD s.current_question_index [])
            s.current_question_index t]).getD i dummyResponse =
          mkResponse (s.questions.getD s.current_question_index [])
            s.current_question_index t := by
        rw [hieq, List.getD_append_right _ _ _ _ (Nat.le_refl _)]
        simp
      simp only [hgd]
      rw [hieq, hlen]
      cases t <;> simp [mkResponse]
  · rw [heq]; exact ⟨hlen, hbound, hmatch⟩
  · rw [heq]; exact ⟨hlen, hbound, hmatch⟩

theorem logAligned_runActions (s : Session) (acts : List Action)
    (h : logAligned s) : logAligned (runActions s acts) := by
  induction acts generalizing s with
  | nil => exact h
  | cons a acts ih => exact ih (applyAction s a) (logAligned_applyAction s a h)

theorem runActions_questions (s : Session) (acts : List Action) :
    (runActions s acts).questions = s.questions := by
  induction acts generalizing s with
  | nil => rfl
  | cons a acts ih =>
    calc (runActions (applyAction s a) acts).questions
        = (applyAction s a).questions := ih (applyAction s a)
      _ = s.questions := applyAction_questions s a

theorem logAligned_createSession (session_id user_id : String) (rd : Dict)
    (qs : List Dict) (jc md : Dict) (now : Nat) :
    logAligned (createSession session_id user_id rd qs jc md now) := by
  refine ⟨rfl, by simp [createSession], ?_⟩
  intro i hi
  simp [createSession] at hi

theorem countP_skipped_split (l : List Response) :
    l.countP (fun r => !r.skipped) + l.countP (fun r => r.skipped) = l.length := by
  induction l with
  | nil => rfl
  | cons r rest ih =>
    by_cases h : r.skipped <;> simp [List.countP_cons, h] <;> omega

theorem length_dropWhile_le_aux {α : Type} (p : α → Bool) (l : List α) :
    (List.dropWhile p l).length ≤ l.length := by
  induction l with
  | nil => simp [List.dropWhile]
  | cons a l ih =>
    by_cases h : p a
    · simp only [List.dropWhile, h]
      exact Nat.le_trans ih (Nat.le_succ _)
    · simp [List.dropWhile, h]

theorem pyStrip_length_le (s : String) : (pyStrip s).length ≤ s.length := by
  show (((s.data.dropWhile Char.isWhitespace).reverse.dropWhile
    Char.isWhitespace).reverse).length ≤ s.data.length
  rw [List.length_reverse]
  have h1 := length_dropWhile_le_aux Char.isWhitespace s.data
  have h2 := length_dropWhile_le_aux Char.isWhitespace
    (s.data.dropWhile Char.isWhitespace).reverse
  rw [List.length_reverse] at h2
  omega

/-- C3: for every in-progress session whose pointer equals the question
list length N (N ≥ 1), `get_current_question` returns none and
transitions the status to completed with the end timestamp set exactly
once; a subsequent call returns none with no further state change, so
the end timestamp of the first completing call is not overwritten. -/
theorem get_current_question_completes_once (s : Session) (t1 t2 : Nat)
    (h1 : s.status = SessionStatus.in_progress)
    (h2 : s.current_question_index = s.questions.length)
    (h3 : 1 ≤ s.questions.length) :
    (get_current_question s t1).1 = none ∧
    (get_current_question s t1).2 =
      { s with status := SessionStatus.completed, end_time := some t1 } ∧
    get_current_question (get_current_question s t1).2 t2 =
      (none, (get_current_question s t1).2) := by
  have hge : s.questions.length ≤ s.current_question_index := Nat.le_of_eq h2.symm
  refine ⟨?_, ?_, ?_⟩ <;>
    simp [get_current_question, h1, hge, complete_session]

/-- Witness for C3 at a concrete one-question session whose pointer has
reached the end while still in progress. -/
theorem get_current_question_completes_once_witness :
    (get_current_question { createSession "sid" "u" [] [[("id", Val.num 1)]] [] [] 0 with
      current_question_index := 1 } 9).1 = none ∧
    (get_current_question (get_current_question { createSession "sid" "u" []
        [[("id", Val.num 1)]] [] [] 0 with current_question_index := 1 } 9).2 11).2.end_time =
      some 9 := by
  have h := get_current_question_completes_once
    { createSession "sid" "u" [] [[("id", Val.num 1)]] [] [] 0 with
      current_question_index := 1 } 9 11 (by decide) (by decide) (by decide)
  refine ⟨h.1, ?_⟩
  rw [h.2.2, h.2.1]

/-- C4: on a session whose status is completed or abandoned,
`submit_answer` and `skip_question` each reject with the invalid-state
error, never with a success outcome. -/
theorem mutators_rejected_on_terminal_session (s : Session) (a : String)
    (t : Option Int) (n1 n2 : Nat)
    (h : s.status = SessionStatus.completed ∨ s.status = SessionStatus.abandoned) :
    (submit_answer s a t n1).1 = Outcome.error "Session is not in progress" ∧
    (skip_question s n2).1 = Outcome.error "Session is not in progress" := by
  have hne : s.status ≠ SessionStatus.in_progress := by
    rcases h with h | h <;> rw [h] <;> intro hcontra <;> cases hcontra
  constructor <;> simp [submit_answer, skip_question, hne]

/-- Witness for C4 on a concrete completed session and a concrete
abandoned session. -/
theorem mutators_rejected_on_terminal_session_witness :
    (submit_answer { createSession "sid" "u" [] [[("id", Val.num 1)]] [] [] 0 with
        status := SessionStatus.completed } "x" none 3).1 =
      Outcome.error "Session is not in progress" ∧
    (skip_question { createSession "sid" "u" [] [[("id", Val.num 1)]] [] [] 0 with
        status := SessionStatus.abandoned } 4).1 =
      Outcome.error "Session is not in progress" := by
  refine ⟨?_, ?_⟩
  · exact (mutators_rejected_on_terminal_session
      { createSession "sid" "u" [] [[("id", Val.num 1)]] [] [] 0 with
        status := SessionStatus.completed } "x" none 3 4 (Or.inl rfl)).1
  · exact (mutators_rejected_on_terminal_session
      { createSession "sid" "u" [] [[("id", Val.num 1)]] [] [] 0 with
        status := SessionStatus.abandoned } "x" none 3 4 (Or.inr rfl)).2

/-- C6: in every status, `get_session_summary` reports answered and
skipped counts (computed over the log, not the pointer) that sum to the
response log length, reports duration end minus start in whole seconds
when the end timestamp is set and 0 otherwise, and does not mutate the
session. -/
theorem summary_counts_and_duration (s : Session) :
    (get_session_summary s).answered_count + (get_session_summary s).skipped_count =
      s.responses.length ∧
    (s.end_time = none → (get_session_summary s).duration_seconds = 0) ∧
    (∀ e, s.end_time = some e →
      (get_session_summary s).duration_seconds = (e : Int) - (s.start_time : Int)) ∧
    applyAction s Action.summaryAct = s := by
  refine ⟨countP_skipped_split s.responses, ?_, ?_, rfl⟩
  · intro h; simp [get_session_summary, h]
  · intro e h; simp [get_session_summary, h]

/-- Witness for C6 on a session abandoned mid-way (one skip recorded,
then abandoned). -/
theorem summary_counts_and_duration_witness :
    (get_session_summary (abandon_session (skip_question (createSession "sid" "u" []
        [[("id", Val.num 1)], [("id", Val.num 2)]] [] [] 100) 130).2 160)).answered_count +
      (get_session_summary (abandon_session (skip_question (createSession "sid" "u" []
        [[("id", Val.num 1)], [("id", Val.num 2)]] [] [] 100) 130).2 160)).skipped_count =
      (abandon_session (skip_question (createSession "sid" "u" []
        [[("id", Val.num 1)], [("id", Val.num 2)]] [] [] 100) 130).2 160).responses.length ∧
    (get_session_summary (abandon_session (skip_question (createSession "sid" "u" []
        [[("id", Val.num 1)], [("id", Val.num 2)]] [] [] 100) 130).2 160)).duration_seconds =
      (160 : Int) - (100 : Int) := by
  refine ⟨(summary_counts_and_duration _).1, ?_⟩
  exact (summary_counts_and_duration _).2.2.1 160 (by decide)

/-- C7: `abandon_session` unconditionally sets status abandoned and the
end timestamp, whatever the pointer and status; a second call just
overwrites the timestamp, and a call on a completed session overwrites
the terminal status. -/
theorem abandon_session_unconditional (s : Session) (t1 t2 : Nat) :
    abandon_session s t1 =
      { s with status := SessionStatus.abandoned, end_time := some t1 } ∧
    (abandon_session (abandon_session s t1) t2).end_time = some t2 ∧
    (abandon_session (abandon_session s t1) t2).status = SessionStatus.abandoned ∧
    (abandon_session { s with status := SessionStatus.completed } t1).status =
      SessionStatus.abandoned := by
  exact ⟨rfl, rfl, rfl, rfl⟩

/-- C10: whenever `submit_answer` or `skip_question` fails (status not
in progress, or pointer at or past the end), the call raises and the
session is left exactly as it was: both guards run before any
mutation. -/
theorem mutators_fail_atomically (s : Session) (a : String) (t : Option Int)
    (n1 n2 : Nat)
    (h : s.status ≠ SessionStatus.in_progress ∨
      s.questions.length ≤ s.current_question_index) :
    (submit_answer s a t n1).2 = s ∧ (submit_answer s a t n1).1.isError = true ∧
    (skip_question s n2).2 = s ∧ (skip_question s n2).1.isError = true := by
  obtain ⟨hs1, m1, hm1⟩ := submit_answer_fail s a t n1 h
  obtain ⟨hs2, m2, hm2⟩ := skip_question_fail s n2 h
  exact ⟨hs1, by rw [hm1]; rfl, hs2, by rw [hm2]; rfl⟩

/-- Witness for C10: a failing submit and skip on a concrete exhausted
in-progress session leave it untouched. -/
theorem mutators_fail_atomically_witness :
    (submit_answer { createSession "sid" "u" [] [[("id", Val.num 1)]] [] [] 0 with
        current_question_index := 1 } "x" none 3).2 =
      { createSession "sid" "u" [] [[("id", Val.num 1)]] [] [] 0 with
        current_question_index := 1 } ∧
    (skip_question { createSession "sid" "u" [] [[("id", Val.num 1)]] [] [] 0 with
        current_question_index := 1 } 4).1.isError = true := by
  have h := mutators_fail_atomically
    { createSession "sid" "u" [] [[("id", Val.num 1)]] [] [] 0 with
      current_question_index := 1 } "x" none 3 4 (Or.inr (by decide))
  exact ⟨h.1, h.2.2.2⟩

/-- C2: in the conversational-answer flow, whenever the category of the
about-to-be-answered question differs from the stored (non-empty)
previous-topic label, the follow-up counter resets to 0, the previous
topic becomes the new category, and the new category is appended to the
covered topics exactly when absent; and across two consecutive turns
with categories resume_based then behavioral, the covered-topics list
grows by exactly one entry when "behavioral" was absent and keeps its
size when it was present. -/
theorem topic_change_resets_and_appends :
    (∀ (s : Session) (q : Dict) (p : String),
      s.previous_topic = some p → p ≠ "" → p ≠ category_of q →
      update_topic_state s (category_of q) = { s with
        follow_up_count := 0
        previous_topic := some (category_of q)
        topics_used := if category_of q ∈ s.topics_used then s.topics_used
          else s.topics_used ++ [category_of q] }) ∧
    (∀ (s : Session), s.previous_topic = some "resume_based" →
      (update_topic_state (update_topic_state s "resume_based")
        "behavioral").follow_up_count = 0 ∧
      (update_topic_state (update_topic_state s "resume_based")
        "behavioral").previous_topic = some "behavioral" ∧
      ("behavioral" ∉ s.topics_used →
        (update_topic_state (update_topic_state s "resume_based")
          "behavioral").topics_used.length = s.topics_used.length + 1) ∧
      ("behavioral" ∈ s.topics_used →
        (update_topic_state (update_topic_state s "resume_based")
          "behavioral").topics_used.length = s.topics_used.length)) := by
  have hgen : ∀ (s : Session) (c p : String),
      s.previous_topic = some p → p ≠ "" → p ≠ c →
      update_topic_state s c = { s with
        follow_up_count := 0
        previous_topic := some c
        topics_used := if c ∈ s.topics_used then s.topics_used
          else s.topics_used ++ [c] } := by
    intro s c p hp hne1 hne2
    have hb : ((p != "") && (p != c)) = true := by
      simp [bne_iff_ne]
      exact ⟨hne1, hne2⟩
    simp [update_topic_state, hp, hb]
  refine ⟨fun s q p hp h1 h2 => hgen s (category_of q) p hp h1 h2, ?_⟩
  intro s hp
  have hstep1 : update_topic_state s "resume_based" = s := by
    simp [update_topic_state, hp]
  rw [hstep1]
  have hstep2 := hgen s "behavioral" "resume_based" hp (by decide) (by decide)
  rw [hstep2]
  refine ⟨rfl, rfl, ?_, ?_⟩
  · intro hmem
    simp [hmem]
  · intro hmem
    simp [hmem]

/-- Witness for C2 at a concrete session whose previous topic is
resume_based with no covered topics yet. -/
theorem topic_change_resets_and_appends_witness :
    (update_topic_state { createSession "sid" "u" []
        [[("category", Val.str "behavioral")]] [] [] 0 with
        previous_topic := some "resume_based" }
      (category_of [("category", Val.str "behavioral")])).previous_topic =
      some "behavioral" ∧
    (update_topic_state (update_topic_state { createSession "sid" "u" []
        [[("category", Val.str "behavioral")]] [] [] 0 with
        previous_topic := some "resume_based" } "resume_based")
      "behavioral").topics_used.length = 1 := by
  constructor
  · have h := topic_change_resets_and_appends.1
      { createSession "sid" "u" [] [[("category", Val.str "behavioral")]] [] [] 0 with
        previous_topic := some "resume_based" }
      [("category", Val.str "behavioral")] "resume_based" rfl (by decide) (by decide)
    rw [h]
    rfl
  · have h := (topic_change_resets_and_appends.2
      { createSession "sid" "u" [] [[("category", Val.str "behavioral")]] [] [] 0 with
        previous_topic := some "resume_based" } rfl).2.2.1 (by decide)
    rw [h]
    rfl

/-- C9: on an in-progress session with the pointer strictly below the
question count, `get_current_question` leaves the session (and in
particular its stored question list) unchanged and returns a copy of
the pointed question annotated with its 1-based position, the total
count and the session id, agreeing with the stored dict on every other
key; and if no stored question carries one of the three annotation
keys, none does after any sequence of operations either. -/
theorem get_current_question_shallow_copy (s : Session) (now : Nat)
    (h1 : s.status = SessionStatus.in_progress)
    (h2 : s.current_question_index < s.questions.length) :
    (get_current_question s now).2 = s ∧
    (∃ q, (get_current_question s now).1 = some q ∧
      dictGet q "question_number" = some (Val.num (s.current_question_index + 1)) ∧
      dictGet q "total_questions" = some (Val.num s.questions.length) ∧
      dictGet q "session_id" = some (Val.str s.session_id) ∧
      ∀ k, k ≠ "question_number" → k ≠ "total_questions" → k ≠ "session_id" →
        dictGet q k = dictGet (s.questions.getD s.current_question_index []) k) ∧
    ∀ acts,
      (∀ qd ∈ s.questions, dictGet qd "question_number" = none ∧
        dictGet qd "total_questions" = none ∧ dictGet qd "session_id" = none) →
      ∀ qd ∈ (runActions s acts).questions, dictGet qd "question_number" = none ∧
        dictGet qd "total_questions" = none ∧ dictGet qd "session_id" = none := by
  have hnle : ¬ s.questions.length ≤ s.current_question_index := Nat.not_le.mpr h2
  refine ⟨?_, ?_, ?_⟩
  · simp [get_current_question, h1, hnle]
  · refine ⟨dictSet (dictSet (dictSet (s.questions.getD s.current_question_index [])
        "question_number" (Val.num (s.current_question_index + 1)))
        "total_questions" (Val.num s.questions.length))
        "session_id" (Val.str s.session_id),
      by simp [get_current_question, h1, hnle, List.getD], ?_, ?_, ?_, ?_⟩
    · rw [dictGet_dictSet_ne _ _ _ _ (by decide),
        dictGet_dictSet_ne _ _ _ _ (by decide), dictGet_dictSet_self]
    · rw [dictGet_dictSet_ne _ _ _ _ (by decide), dictGet_dictSet_self]
    · rw [dictGet_dictSet_self]
    · intro k hk1 hk2 hk3
      rw [dictGet_dictSet_ne _ _ _ _ hk3, dictGet_dictSet_ne _ _ _ _ hk2,
        dictGet_dictSet_ne _ _ _ _ hk1]
  · intro acts hclean qd hqd
    rw [runActions_questions] at hqd
    exact hclean qd hqd

/-- Witness for C9 at a concrete fresh two-question session. -/
theorem get_current_question_shallow_copy_witness :
    (get_current_question (createSession "sid" "u" []
        [[("id", Val.num 1), ("question", Val.str "Q1")],
         [("id", Val.num 2), ("question", Val.str "Q2")]] [] [] 0) 7).2 =
      createSession "sid" "u" []
        [[("id", Val.num 1), ("question", Val.str "Q1")],
         [("id", Val.num 2), ("question", Val.str "Q2")]] [] [] 0 ∧
    (∃ q, (get_current_question (createSession "sid" "u" []
        [[("id", Val.num 1), ("question", Val.str "Q1")],
         [("id", Val.num 2), ("question", Val.str "Q2")]] [] [] 0) 7).1 = some q ∧
      dictGet q "question_number" = some (Val.num 1)) := by
  have h := get_current_question_shallow_copy (createSession "sid" "u" []
    [[("id", Val.num 1), ("question", Val.str "Q1")],
     [("id", Val.num 2), ("question", Val.str "Q2")]] [] [] 0) 7 rfl (by decide)
  obtain ⟨q, hq, hn, _⟩ := h.2.1
  exact ⟨h.1, q, hq, hn⟩

/-- C5: after every operation sequence on a created session, the
response log never outgrows the question list, its length equals the
pointer (one response per advance, in order), each entry carries the id
and text of the question at the same index, and the pointer is
monotonic under every single operation. -/
theorem response_log_matches_questions
    (session_id user_id : String) (rd : Dict) (qs : List Dict) (jc md : Dict)
    (t0 : Nat) (acts : List Action) :
    (runActions (createSession session_id user_id rd qs jc md t0) acts).responses.length ≤
      qs.length ∧
    (runActions (createSession session_id user_id rd qs jc md t0) acts).responses.length =
      (runActions (createSession session_id user_id rd qs jc md t0)
        acts).current_question_index ∧
    (∀ i, i < (runActions (createSession session_id user_id rd qs jc md t0)
        acts).responses.length →
      ((runActions (createSession session_id user_id rd qs jc md t0)
          acts).responses.getD i dummyResponse).question_id =
        (dictGet (qs.getD i []) "id").getD (Val.num (i + 1)) ∧
      ((runActions (createSession session_id user_id rd qs jc md t0)
          acts).responses.getD i dummyResponse).question_text =
        (dictGet (qs.getD i []) "question").getD (Val.str "")) ∧
    ∀ (s : Session) (a : Action),
      s.current_question_index ≤ (applyAction s a).current_question_index := by
  have hq : (runActions (createSession session_id user_id rd qs jc md t0)
      acts).questions = qs :=
    runActions_questions (createSession session_id user_id rd qs jc md t0) acts
  obtain ⟨hlen, hbound, hmatch⟩ :=
    logAligned_runActions (createSession session_id user_id rd qs jc md t0) acts
      (logAligned_createSession session_id user_id rd qs jc md t0)
  rw [hq] at hbound hmatch
  refine ⟨by omega, hlen, hmatch, applyAction_index_mono⟩

/-- Witness for C5 after a concrete mixed sequence (skip, submit, a
rejected extra submit, abandon). -/
theorem response_log_matches_questions_witness :
    (runActions (createSession "sid" "u" []
        [[("id", Val.num 1), ("question", Val.str "Q1")],
         [("id", Val.num 2), ("question", Val.str "Q2")]] [] [] 0)
      [Action.skipAct 3, Action.submitAct "A" (some 2) 5, Action.submitAct "B" none 6,
       Action.abandonAct 9]).responses.length ≤ 2 ∧
    ((runActions (createSession "sid" "u" []
        [[("id", Val.num 1), ("question", Val.str "Q1")],
         [("id", Val.num 2), ("question", Val.str "Q2")]] [] [] 0)
      [Action.skipAct 3, Action.submitAct "A" (some 2) 5, Action.submitAct "B" none 6,
       Action.abandonAct 9]).responses.getD 0 dummyResponse).question_text =
      Val.str "Q1" := by
  have h := response_log_matches_questions "sid" "u" []
    [[("id", Val.num 1), ("question", Val.str "Q1")],
     [("id", Val.num 2), ("question", Val.str "Q2")]] [] [] 0
    [Action.skipAct 3, Action.submitAct "A" (some 2) 5, Action.submitAct "B" none 6,
     Action.abandonAct 9]
  refine ⟨h.1, ?_⟩
  have h0 := (h.2.2.1 0 (by decide)).2
  rw [h0]
  decide

/-- C1: for every session created with N ≥ 1 questions, after exactly N
submit_answer/skip_question calls in any mix — all of which succeed —
the status is completed, the end timestamp is set, and the response log
has length N with the entry at index i recording the question at index
i: id and text copied at answer time, skipped flag false for a submit
and true for a skip. -/
theorem session_completes_after_n_turns
    (session_id user_id : String) (rd : Dict) (qs : List Dict) (jc md : Dict)
    (t0 : Nat) (turns : List Turn)
    (hN : turns.length = qs.length) (hpos : 1 ≤ qs.length) :
    runTurnsOk (createSession session_id user_id rd qs jc md t0) turns = true ∧
    (runTurns (createSession session_id user_id rd qs jc md t0) turns).status =
      SessionStatus.completed ∧
    (runTurns (createSession session_id user_id rd qs jc md t0)
      turns).end_time.isSome = true ∧
    (runTurns (createSession session_id user_id rd qs jc md t0)
      turns).responses.length = qs.length ∧
    ∀ i, i < qs.length →
      ((runTurns (createSession session_id user_id rd qs jc md t0)
          turns).responses.getD i dummyResponse).question_id =
        (dictGet (qs.getD i []) "id").getD (Val.num (i + 1)) ∧
      ((runTurns (createSession session_id user_id rd qs jc md t0)
          turns).responses.getD i dummyResponse).question_text =
        (dictGet (qs.getD i []) "question").getD (Val.str "") ∧
      ((runTurns (createSession session_id user_id rd qs jc md t0)
          turns).responses.getD i dummyResponse).skipped =
        (turns.getD i (Turn.skipT 0)).isSkip := by
  have hst : (createSession session_id user_id rd qs jc md t0).status =
    SessionStatus.in_progress := rfl
  have hlen : (createSession session_id user_id rd qs jc md t0).current_question_index +
      turns.length ≤ (createSession session_id user_id rd qs jc md t0).questions.length := by
    simp [createSession, hN]
  obtain ⟨hok, hresp, _, _, _, _, hdone⟩ :=
    runTurns_spec turns (createSession session_id user_id rd qs jc md t0) hst hlen
  have hne : turns ≠ [] := by
    intro hcontra
    rw [hcontra] at hN
    simp at hN
    omega
  obtain ⟨hcompleted, hend⟩ := hdone hne (by simp [createSession, hN])
  have hresp2 : (runTurns (createSession session_id user_id rd qs jc md t0)
      turns).responses = expectedResponses qs 0 turns := by
    rw [hresp]; rfl
  refine ⟨hok, hcompleted, hend, ?_, ?_⟩
  · rw [hresp2, expectedResponses_length, hN]
  · intro i hi
    have hi2 : i < turns.length := by omega
    have hg := expectedResponses_getD qs turns 0 i hi2 dummyResponse (Turn.skipT 0)
    rw [hresp2, hg]
    simp only [Nat.zero_add]
    cases turns.getD i (Turn.skipT 0) <;> simp [mkResponse, Turn.isSkip]

/-- Witness for C1: a two-question session completed by one skip and
one submit. -/
theorem session_completes_after_n_turns_witness :
    runTurnsOk (createSession "sid" "u" []
      [[("id", Val.num 1), ("question", Val.str "Q1")],
       [("id", Val.num 2), ("question", Val.str "Q2")]] [] [] 0)
      [Turn.skipT 3, Turn.submitT "A" (some 2) 5] = true ∧
    (runTurns (createSession "sid" "u" []
      [[("id", Val.num 1), ("question", Val.str "Q1")],
       [("id", Val.num 2), ("question", Val.str "Q2")]] [] [] 0)
      [Turn.skipT 3, Turn.submitT "A" (some 2) 5]).status =
      SessionStatus.completed ∧
    ((runTurns (createSession "sid" "u" []
      [[("id", Val.num 1), ("question", Val.str "Q1")],
       [("id", Val.num 2), ("question", Val.str "Q2")]] [] [] 0)
      [Turn.skipT 3, Turn.submitT "A" (some 2) 5]).responses.getD 0
        dummyResponse).skipped = true := by
  have h := session_completes_after_n_turns "sid" "u" []
    [[("id", Val.num 1), ("question", Val.str "Q1")],
     [("id", Val.num 2), ("question", Val.str "Q2")]] [] [] 0
    [Turn.skipT 3, Turn.submitT "A" (some 2) 5] (by decide) (by decide)
  refine ⟨h.1, h.2.1, ?_⟩
  have h0 := (h.2.2.2.2 0 (by decide)).2.2
  rw [h0]
  decide

/-- C8 counterexample: with the LLM Gateway failing, the 5-character
answer "hello" is evaluated to score 1 — the under-10-characters guard
fires before the Gateway is even consulted — not to score 4 as the
claim states. -/
theorem evaluator_five_char_counterexample :
    "hello".length = 5 ∧
    (evaluate_answer "hello" none (fun _ => none)).1.score = 1 ∧
    ¬ (evaluate_answer "hello" none (fun _ => none)).1.score = 4 ∧
    (evaluate_answer "hello" none (fun _ => none)).2 = false := by
  decide

/-- C8 (amended): any answer shorter than 10 characters after trimming
— in particular every 5-character answer — short-circuits to the fixed
score 1 without invoking the LLM Gateway, whatever the Gateway call
would have produced; the length-bucketed fallback heuristic itself
assigns a 5-character answer score 4 with a non-none follow-up
suggestion; and when the Gateway fails, an answer of exactly 200
characters with no leading or trailing whitespace yields score 7 and a
none follow-up. -/
theorem evaluator_fallback_buckets (a5 a200 ashort : String)
    (parse : String → Option ParsedEval) (llm : Option String)
    (h5 : a5.length = 5)
    (h200len : a200.length = 200) (h200strip : pyStrip a200 = a200)
    (hshort : (pyStrip ashort).length < 10) :
    (evaluate_answer a5 none parse).1.score = 1 ∧
    (generate_fallback_evaluation a5).score = 4 ∧
    (generate_fallback_evaluation a5).follow_up_question.isSome = true ∧
    (evaluate_answer a200 none parse).1.score = 7 ∧
    (evaluate_answer a200 none parse).1.follow_up_question = none ∧
    (evaluate_answer ashort llm parse).1.score = 1 ∧
    (evaluate_answer ashort llm parse).2 = false := by
  have hle := pyStrip_length_le a5
  have h5strip : (pyStrip a5).length < 10 := by omega
  have h5strip50 : (pyStrip a5).length < 50 := by omega
  have h200 : (pyStrip a200).length = 200 := by rw [h200strip]; exact h200len
  refine ⟨?_, ?_, ?_, ?_, ?_, ?_, ?_⟩
  · simp [evaluate_answer, h5strip]
  · simp [generate_fallback_evaluation, h5strip50]
  · simp [generate_fallback_evaluation, h5strip50]
  · simp [evaluate_answer, generate_fallback_evaluation, h200]
  · simp [evaluate_answer, generate_fallback_evaluation, h200]
  · simp [evaluate_answer, hshort]
  · simp [evaluate_answer, hshort]

set_option maxRecDepth 4000 in
/-- Witness for the amended C8 at concrete answers: "hello" (5 chars),
200 repetitions of a non-whitespace character, and "hi" with a Gateway
reply present. -/
theorem evaluator_fallback_buckets_witness :
    (evaluate_answer "hello" none (fun _ => none)).1.score = 1 ∧
    (generate_fallback_evaluation "hello").score = 4 ∧
    (evaluate_answer (String.mk (List.replicate 200 'a')) none
      (fun _ => none)).1.score = 7 ∧
    (evaluate_answer "hi" (some "ok then") (fun _ => none)).2 = false := by
  have h := evaluator_fallback_buckets "hello" (String.mk (List.replicate 200 'a'))
    "hi" (fun _ => none) (some "ok then") (by decide) (by decide) (by decide)
    (by decide)
  exact ⟨h.1, h.2.1, h.2.2.2.1, h.2.2.2.2.2.2⟩

end InterviewBackend
